import Mathlib

/-!
Shallow embedding of `src/python-backend/main.py`: a FastAPI gateway that
forwards inbound requests to a configured Spring upstream.

Modelling conventions:
* Python `dict`s become insertion-ordered association lists with unique,
  case-sensitive keys; `dict.pop` and `d[k] = v` are embedded as `dictPop`
  and `dictSet` with exactly Python's (case-sensitive) key semantics.
* The header mapping a handler sees, `dict(request.headers)`, has its keys
  lowercased by the ASGI server (the ASGI spec requires lowercased header
  names on the wire-to-app boundary); claims that depend on this state it
  as an explicit hypothesis on the inbound request.
* The upstream is an oracle: a function from the outbound request the
  gateway builds to either a response or a transport error
  (`httpx.RequestError`, carrying `str(e)`).
* Handlers run inside a process that has a clock; `datetime.now()` reads
  the local-time field of that clock. The embedded `proxy_to_spring`
  receives the clock (as every handler does) and never reads it, exactly
  like the source.
* A handler's result records both the outbound calls it issued and the
  HTTP response produced, so single-call and pass-through claims are
  statable.
-/

/-- The HTTP methods routed to the proxy handler (`main.py` line 47). -/
inductive HttpMethod where
  | GET
  | POST
  | PUT
  | DELETE
  | PATCH
  deriving DecidableEq, Repr

/-- JSON values, for the `/api/process` payloads and synthesized JSON bodies. -/
inductive Json where
  | null : Json
  | bool (b : Bool) : Json
  | num (n : Int) : Json
  | str (s : String) : Json
  | arr (elems : List Json) : Json
  | obj (fields : List (String × Json)) : Json
  deriving Repr

/-- Lowercasing of an HTTP header name, character by character. Used to state
claims about headers case-insensitively, and to state the ASGI contract that
header names reaching a handler are already lowercased. -/
def lowerName (s : String) : String := String.mk (s.data.map Char.toLower)

/-- The process clock as a handler can observe it. `datetime.now()` in
`main.py` line 89 returns the *local* time; the UTC reading is carried
alongside so that claims about UTC are statable. -/
structure Clock where
  nowISO : String
  utcNowISO : String
  deriving Repr, DecidableEq

/-- The environment-sourced configuration (`main.py` lines 14-15). -/
structure Config where
  SPRING_BACKEND_URL : String
  API_KEY : String
  deriving Repr, DecidableEq

/-- An inbound request as the proxy handler observes it: method, the captured
`path` segment, `dict(request.query_params)`, `dict(request.headers)` and the
raw body bytes. -/
structure InboundRequest where
  method : HttpMethod
  path : String
  queryParams : List (String × String)
  headers : List (String × String)
  body : List Nat
  deriving Repr, DecidableEq

/-- Python `d.pop(k, None)` on a dict embedded as an association list with
unique keys: drop the entry whose key equals `k` exactly. -/
def dictPop (d : List (String × String)) (k : String) : List (String × String) :=
  d.filter (fun p => decide (p.1 ≠ k))

/-- Python `d[k] = v`: replace the value in place when the (case-sensitive)
key is present, otherwise append the new entry at the end. -/
def dictSet : List (String × String) → String → String → List (String × String)
  | [], k, v => [(k, v)]
  | p :: rest, k, v => if p.1 = k then (k, v) :: rest else p :: dictSet rest k v

/-- The outbound request handed to `http_client.request` (`main.py` 64-70). -/
structure OutboundRequest where
  method : HttpMethod
  url : String
  headers : List (String × String)
  params : List (String × String)
  content : List Nat
  deriving Repr, DecidableEq

/-- An upstream HTTP response as exposed by the httpx client: status code,
header mapping (`dict(response.headers)`) and raw content bytes. -/
structure UpstreamResponse where
  status_code : Nat
  headers : List (String × String)
  content : List Nat
  deriving Repr, DecidableEq

/-- Outcome of the single outbound call in `proxy_to_spring`: a response, or
an `httpx.RequestError` carrying `str(e)`. -/
inductive UpstreamResult where
  | ok (resp : UpstreamResponse) : UpstreamResult
  | requestError (msg : String) : UpstreamResult
  deriving Repr, DecidableEq

/-- The HTTP response the gateway returns to its caller.
`passthrough` is the `Response(content=..., status_code=..., headers=...)`
branch; `httpError` is a raised `HTTPException(status_code, detail)`, which
FastAPI renders as a JSON body with a single `detail` field; `jsonResp` is a
`JSONResponse`; `validationError` is FastAPI's model-validation rejection
(issued before a handler runs). -/
inductive GatewayResponse where
  | passthrough (status_code : Nat) (headers : List (String × String))
      (content : List Nat) : GatewayResponse
  | httpError (status_code : Nat) (detail : String) : GatewayResponse
  | jsonResp (status_code : Nat) (body : Json) : GatewayResponse
  | validationError (status_code : Nat) : GatewayResponse
  deriving Repr

/-- Status code of a gateway response. -/
def GatewayResponse.status : GatewayResponse → Nat
  | .passthrough s _ _ => s
  | .httpError s _ => s
  | .jsonResp s _ => s
  | .validationError s => s

/-- The JSON body of a gateway response, when it has one. A raised
`HTTPException(status, detail)` is rendered by FastAPI as the JSON object
with the single field `detail`. -/
def GatewayResponse.bodyJson : GatewayResponse → Option Json
  | .passthrough _ _ _ => none
  | .httpError _ d => some (Json.obj [("detail", Json.str d)])
  | .jsonResp _ j => some j
  | .validationError _ => none

/-- Whether a gateway response is a framework validation rejection. -/
def GatewayResponse.isValidationError : GatewayResponse → Bool
  | .validationError _ => true
  | _ => false

/-- Result of one handler invocation: the outbound calls issued to the
upstream, and the response returned to the caller. -/
structure ForwardResult where
  outboundCalls : List OutboundRequest
  response : GatewayResponse
  deriving Repr

/-- Header preparation in `proxy_to_spring` (`main.py` 56-60):
`headers = dict(request.headers)`, `headers.pop("host", None)`, and when
`API_KEY` is truthy (non-empty) `headers["Authorization"] = f"Bearer {API_KEY}"`. -/
def proxyHeaders (cfg : Config) (req : InboundRequest) : List (String × String) :=
  let headers := dictPop req.headers "host"
  if cfg.API_KEY ≠ "" then dictSet headers "Authorization" ("Bearer " ++ cfg.API_KEY)
  else headers

/-- The outbound request `proxy_to_spring` builds (`main.py` 50, 64-70):
url `f"{SPRING_BACKEND_URL}/{path}"`, the sanitized headers, the original
method, query params and body. -/
def outboundOf (cfg : Config) (req : InboundRequest) : OutboundRequest :=
  { method := req.method
    url := cfg.SPRING_BACKEND_URL ++ "/" ++ req.path
    headers := proxyHeaders cfg req
    params := req.queryParams
    content := req.body }

/-- `proxy_to_spring` (`main.py` 47-79): build the outbound request, issue it
once against the upstream oracle, and either pass the upstream response
through verbatim or raise `HTTPException(500, "Error communicating with
backend: " + str(e))` on a transport error. The clock parameter is the
ambient process clock, which this handler never reads. -/
def proxy_to_spring (cfg : Config) (_clock : Clock) (req : InboundRequest)
    (upstream : OutboundRequest → UpstreamResult) : ForwardResult :=
  let out := outboundOf cfg req
  match upstream out with
  | .ok resp =>
      { outboundCalls := [out]
        response := .passthrough resp.status_code resp.headers resp.content }
  | .requestError msg =>
      { outboundCalls := [out]
        response := .httpError 500 ("Error communicating with backend: " ++ msg) }

/-- `health_check` (`main.py` 42-45): returns the literal status dict, which
FastAPI serves as JSON with the default status code 200. It takes no input
and touches no state, so it is a constant of the embedding. -/
def health_check : GatewayResponse :=
  .jsonResp 200 (Json.obj [("status", Json.str "healthy"),
                           ("service", Json.str "python-backend")])

/-- The single outbound POST of `process_data` (`main.py` 93-98): fixed url
`f"{SPRING_BACKEND_URL}/api/processed-data"`, a `Content-Type:
application/json` header, and a JSON body. -/
structure ProcessCall where
  url : String
  headers : List (String × String)
  jsonBody : Json
  deriving Repr

/-- Outcome of the outbound POST in `process_data` as the handler consumes
it: a response whose status is `status` and whose `response.json()` parse
result is `parsed` (parsing the body can itself fail), or a transport error
carrying `str(e)`. -/
inductive ProcessUpstreamResult where
  | ok (status : Nat) (parsed : Except String Json) : ProcessUpstreamResult
  | requestError (msg : String) : ProcessUpstreamResult
  deriving Repr

/-- The textual description of a failed `process_data` round trip: `str(e)`
of the transport error, or of the JSON decode error of the upstream body.
`none` when the round trip succeeded. -/
def ProcessUpstreamResult.failureMsg : ProcessUpstreamResult → Option String
  | .ok _ (.error msg) => some msg
  | .requestError msg => some msg
  | _ => none

/-- Result of one `process_data` invocation: the outbound POSTs issued and
the response returned. -/
structure ProcessResult where
  outboundCalls : List ProcessCall
  response : GatewayResponse
  deriving Repr

/-- The enriched object and outbound POST that `process_data` constructs
(`main.py` 86-98): body `{"processed": True, "original": data, "timestamp":
datetime.now().isoformat()}` — `datetime.now()` reads the local clock —
posted to `f"{SPRING_BACKEND_URL}/api/processed-data"` with a
`Content-Type: application/json` header. -/
def processCall (cfg : Config) (clock : Clock) (data : List (String × Json)) : ProcessCall :=
  { url := cfg.SPRING_BACKEND_URL ++ "/api/processed-data"
    headers := [("Content-Type", "application/json")]
    jsonBody := Json.obj [("processed", Json.bool true),
                          ("original", Json.obj data),
                          ("timestamp", Json.str clock.nowISO)] }

/-- `process_data` (`main.py` 81-106): build the enriched payload, POST it
once to the fixed upstream path, and return `JSONResponse(response.json(),
response.status_code)`; any exception — transport error or JSON decode
failure — is caught by the bare `except` and re-raised as
`HTTPException(500, str(e))`. -/
def process_data (cfg : Config) (clock : Clock) (data : List (String × Json))
    (upstream : ProcessCall → ProcessUpstreamResult) : ProcessResult :=
  let call := processCall cfg clock data
  match upstream call with
  | .ok status (.ok j) =>
      { outboundCalls := [call], response := .jsonResp status j }
  | .ok _ (.error msg) =>
      { outboundCalls := [call], response := .httpError 500 msg }
  | .requestError msg =>
      { outboundCalls := [call], response := .httpError 500 msg }

/-- The `/api/process` endpoint as FastAPI dispatches it: the handler's
parameter is annotated `data: Dict[str, Any]` (`main.py` line 82), so the
framework validates the request body as a JSON object before the handler
runs; any other JSON shape is rejected with a 422 validation response and
no handler call. -/
def processEndpoint (cfg : Config) (clock : Clock) (body : Json)
    (upstream : ProcessCall → ProcessUpstreamResult) : ProcessResult :=
  match body with
  | .obj fields => process_data cfg clock fields upstream
  | _ => { outboundCalls := [], response := .validationError 422 }

/-- The string value of field `k` of a JSON object, when present. -/
def objFieldStr (j : Json) (k : String) : Option String :=
  match j with
  | .obj fields =>
      match fields.find? (fun p => decide (p.1 = k)) with
      | some (_, Json.str s) => some s
      | _ => none
  | _ => none

/-- Sample configuration with the default upstream and an empty `API_KEY`. -/
def cfgNoKey : Config :=
  { SPRING_BACKEND_URL := "http://localhost:8080", API_KEY := "" }

/-- Sample configuration with a non-empty `API_KEY`. -/
def cfgWithKey : Config :=
  { SPRING_BACKEND_URL := "http://localhost:8080", API_KEY := "secret" }

/-- Sample clock of a process running in a non-UTC timezone: the local
reading (what `datetime.now()` returns) differs from the UTC reading. -/
def clock0 : Clock :=
  { nowISO := "2026-10-12T10:00:00", utcNowISO := "2026-10-12T14:00:00" }

/-- Sample inbound request with lowercased header names, as the ASGI server
delivers them. -/
def req0 : InboundRequest :=
  { method := .GET
    path := "items/1"
    queryParams := [("q", "1")]
    headers := [("host", "gateway:5000"), ("accept", "application/json")]
    body := [104, 105] }

/-- Sample inbound request that carries its own `authorization` header
(lowercased by the ASGI server, as on the real wire-to-app boundary). -/
def reqAuth : InboundRequest :=
  { method := .GET
    path := "items"
    queryParams := []
    headers := [("authorization", "Bearer old-token")]
    body := [] }

/-- Sample upstream response with a 4xx status. -/
def respSample : UpstreamResponse :=
  { status_code := 404
    headers := [("content-type", "text/plain"), ("x-upstream", "yes")]
    content := [111, 111, 112, 115] }

/-- Claim C1: for every supported method and every path string (including the
empty string, strings with slashes and query-like substrings), `forward`
issues exactly one outbound call whose target URL is the upstream base URL,
then "/", then the path, with no normalization or escaping of its own. -/
theorem C1_forward_url (cfg : Config) (clock : Clock) (req : InboundRequest)
    (upstream : OutboundRequest → UpstreamResult) :
    (proxy_to_spring cfg clock req upstream).outboundCalls.map OutboundRequest.url
      = [cfg.SPRING_BACKEND_URL ++ "/" ++ req.path] := by
  cases h : upstream (outboundOf cfg req) <;>
    simp only [proxy_to_spring, h] <;> simp [outboundOf]

/-- Claim C2: whenever the upstream call yields a response, `forward` returns
exactly that response's status code, its body byte-for-byte and its headers
verbatim, for every status code (4xx and 5xx included) — upstream responses
are never converted into gateway errors. -/
theorem C2_passthrough (cfg : Config) (clock : Clock) (req : InboundRequest)
    (upstream : OutboundRequest → UpstreamResult) (resp : UpstreamResponse)
    (h : upstream (outboundOf cfg req) = .ok resp) :
    (proxy_to_spring cfg clock req upstream).response
      = .passthrough resp.status_code resp.headers resp.content := by
  simp [proxy_to_spring, h]

/-- Witness for C2 at a concrete 404 upstream response. -/
theorem C2_passthrough_witness :
    (fun _ : OutboundRequest => UpstreamResult.ok respSample) (outboundOf cfgNoKey req0)
      = .ok respSample
    ∧ (proxy_to_spring cfgNoKey clock0 req0 (fun _ => .ok respSample)).response
      = .passthrough respSample.status_code respSample.headers respSample.content :=
  ⟨rfl, C2_passthrough cfgNoKey clock0 req0 (fun _ => .ok respSample) respSample rfl⟩

/-- Claim C3: with an empty `API_KEY`, no header whose name lowercases to
"host" ever appears in the outbound header set (given the ASGI guarantee
that inbound header names are lowercased), and every other inbound header
entry passes through to the upstream exactly as the handler received it. -/
theorem C3_host_stripped (cfg : Config) (req : InboundRequest)
    (hk : cfg.API_KEY = "")
    (hlc : ∀ p ∈ req.headers, lowerName p.1 = p.1) :
    (∀ k v, lowerName k = "host" → (k, v) ∉ (outboundOf cfg req).headers)
    ∧ (∀ p ∈ req.headers, p.1 ≠ "host" → p ∈ (outboundOf cfg req).headers)
    ∧ (∀ p ∈ (outboundOf cfg req).headers, p ∈ req.headers ∧ p.1 ≠ "host") := by
  have hph : (outboundOf cfg req).headers = dictPop req.headers "host" := by
    simp [outboundOf, proxyHeaders, hk]
  refine ⟨?_, ?_, ?_⟩
  · intro k v hkl hmem
    rw [hph] at hmem
    simp only [dictPop, List.mem_filter, decide_eq_true_eq] at hmem
    have hl : lowerName k = k := hlc (k, v) hmem.1
    exact hmem.2 (hl.symm.trans hkl)
  · intro p hp hne
    rw [hph]
    simp only [dictPop, List.mem_filter, decide_eq_true_eq]
    exact ⟨hp, hne⟩
  · intro p hp
    rw [hph] at hp
    simp only [dictPop, List.mem_filter, decide_eq_true_eq] at hp
    exact hp

/-- Witness for C3 at a concrete request carrying a `host` header. -/
theorem C3_host_stripped_witness :
    cfgNoKey.API_KEY = ""
    ∧ (∀ p ∈ req0.headers, lowerName p.1 = p.1)
    ∧ ((∀ k v, lowerName k = "host" → (k, v) ∉ (outboundOf cfgNoKey req0).headers)
       ∧ (∀ p ∈ req0.headers, p.1 ≠ "host" → p ∈ (outboundOf cfgNoKey req0).headers)
       ∧ (∀ p ∈ (outboundOf cfgNoKey req0).headers, p ∈ req0.headers ∧ p.1 ≠ "host")) :=
  ⟨rfl, by decide, C3_host_stripped cfgNoKey req0 rfl (by decide)⟩

/-- Claim C4, evaluated at its failing input: with `API_KEY = "secret"` and an
inbound `authorization: Bearer old-token` header (header names reach the
handler lowercased), the outbound header set keeps the inbound entry and adds
a second, differently-cased `Authorization` entry — both names lowercase to
"authorization", so the inbound credential is not overwritten and two
authorization headers go out. -/
theorem C4_bug_eval :
    (outboundOf cfgWithKey reqAuth).headers
      = [("authorization", "Bearer old-token"), ("Authorization", "Bearer secret")]
    ∧ (outboundOf cfgWithKey reqAuth).headers.map (fun p => lowerName p.1)
      = ["authorization", "authorization"] := by
  refine ⟨by decide, by decide⟩

/-- Claim C5: whenever the outbound call fails at transport level, `forward`
returns a synthesized HTTP 500 whose JSON body is the object with single
field "detail" set to "Error communicating with backend: " followed by the
error description, and exactly one outbound call was made. -/
theorem C5_transport_error (cfg : Config) (clock : Clock) (req : InboundRequest)
    (upstream : OutboundRequest → UpstreamResult) (msg : String)
    (h : upstream (outboundOf cfg req) = .requestError msg) :
    (proxy_to_spring cfg clock req upstream).response
      = .httpError 500 ("Error communicating with backend: " ++ msg)
    ∧ (proxy_to_spring cfg clock req upstream).response.bodyJson
      = some (Json.obj [("detail", Json.str ("Error communicating with backend: " ++ msg))])
    ∧ (proxy_to_spring cfg clock req upstream).outboundCalls.length = 1 := by
  refine ⟨?_, ?_, ?_⟩ <;> simp [proxy_to_spring, h, GatewayResponse.bodyJson]

/-- Witness for C5 at a concrete connection failure. -/
theorem C5_transport_error_witness :
    (fun _ : OutboundRequest => UpstreamResult.requestError "Connection refused")
      (outboundOf cfgNoKey req0) = .requestError "Connection refused"
    ∧ ((proxy_to_spring cfgNoKey clock0 req0 (fun _ => .requestError "Connection refused")).response
        = .httpError 500 ("Error communicating with backend: " ++ "Connection refused")
      ∧ (proxy_to_spring cfgNoKey clock0 req0 (fun _ => .requestError "Connection refused")).response.bodyJson
        = some (Json.obj [("detail",
            Json.str ("Error communicating with backend: " ++ "Connection refused"))])
      ∧ (proxy_to_spring cfgNoKey clock0 req0
          (fun _ => .requestError "Connection refused")).outboundCalls.length = 1) :=
  ⟨rfl, C5_transport_error cfgNoKey clock0 req0
    (fun _ => .requestError "Connection refused") "Connection refused" rfl⟩

/-- Counterexample to claim C6 as stated: run on a clock whose local reading
(what `datetime.now()` returns) differs from the UTC reading — any non-UTC
timezone — the `timestamp` field of the object POSTed to the upstream is the
local time, not the current UTC time the claim requires. -/
theorem C6_counterexample :
    objFieldStr (processCall cfgNoKey clock0 [("x", Json.num 1)]).jsonBody "timestamp"
      = some clock0.nowISO
    ∧ objFieldStr (processCall cfgNoKey clock0 [("x", Json.num 1)]).jsonBody "timestamp"
      ≠ some clock0.utcNowISO := by
  refine ⟨by decide, by decide⟩

/-- Claim C6 (amended: the timestamp is the gateway's current local time, as
produced by `datetime.now().isoformat()`, not UTC): on a successful round
trip, `processAndForward` POSTs exactly the object with fields `processed:
true`, `original: <the unmodified inbound payload>` and `timestamp: <current
local time, ISO-8601>` to the fixed upstream path `/api/processed-data` with
a `Content-Type: application/json` header, and returns the upstream's status
code with the upstream's JSON body. -/
theorem C6_process_forward (cfg : Config) (clock : Clock) (data : List (String × Json))
    (upstream : ProcessCall → ProcessUpstreamResult) (status : Nat) (j : Json)
    (h : upstream (processCall cfg clock data) = .ok status (.ok j)) :
    (process_data cfg clock data upstream).response = .jsonResp status j
    ∧ (process_data cfg clock data upstream).outboundCalls = [processCall cfg clock data]
    ∧ (processCall cfg clock data).url = cfg.SPRING_BACKEND_URL ++ "/api/processed-data"
    ∧ (processCall cfg clock data).headers = [("Content-Type", "application/json")]
    ∧ (processCall cfg clock data).jsonBody
      = Json.obj [("processed", Json.bool true), ("original", Json.obj data),
                  ("timestamp", Json.str clock.nowISO)] := by
  refine ⟨?_, ?_, rfl, rfl, rfl⟩ <;> simp only [process_data, h]

/-- Witness for the amended C6 at a concrete payload and upstream reply. -/
theorem C6_process_forward_witness :
    (fun _ : ProcessCall => ProcessUpstreamResult.ok 201 (Except.ok Json.null))
      (processCall cfgNoKey clock0 [("x", Json.num 1)]) = .ok 201 (.ok Json.null)
    ∧ ((process_data cfgNoKey clock0 [("x", Json.num 1)]
          (fun _ => .ok 201 (.ok Json.null))).response = .jsonResp 201 Json.null
      ∧ (process_data cfgNoKey clock0 [("x", Json.num 1)]
          (fun _ => .ok 201 (.ok Json.null))).outboundCalls
        = [processCall cfgNoKey clock0 [("x", Json.num 1)]]
      ∧ (processCall cfgNoKey clock0 [("x", Json.num 1)]).url
        = cfgNoKey.SPRING_BACKEND_URL ++ "/api/processed-data"
      ∧ (processCall cfgNoKey clock0 [("x", Json.num 1)]).headers
        = [("Content-Type", "application/json")]
      ∧ (processCall cfgNoKey clock0 [("x", Json.num 1)]).jsonBody
        = Json.obj [("processed", Json.bool true),
                    ("original", Json.obj [("x", Json.num 1)]),
                    ("timestamp", Json.str clock0.nowISO)]) :=
  ⟨rfl, C6_process_forward cfgNoKey clock0 [("x", Json.num 1)]
    (fun _ => .ok 201 (.ok Json.null)) 201 Json.null rfl⟩

/-- Claim C7: every failure of the `processAndForward` round trip — transport
error or JSON decode failure of the upstream response — yields HTTP 500 with
JSON body the object with single field "detail" set to the failure's textual
description, with exactly one outbound call and no partial result. -/
theorem C7_process_failure (cfg : Config) (clock : Clock) (data : List (String × Json))
    (upstream : ProcessCall → ProcessUpstreamResult) (msg : String)
    (h : (upstream (processCall cfg clock data)).failureMsg = some msg) :
    (process_data cfg clock data upstream).response = .httpError 500 msg
    ∧ (process_data cfg clock data upstream).response.bodyJson
      = some (Json.obj [("detail", Json.str msg)])
    ∧ (process_data cfg clock data upstream).outboundCalls.length = 1 := by
  cases hu : upstream (processCall cfg clock data) with
  | ok status parsed =>
      cases parsed with
      | ok j =>
          rw [hu] at h
          simp [ProcessUpstreamResult.failureMsg] at h
      | error m =>
          rw [hu] at h
          simp only [ProcessUpstreamResult.failureMsg, Option.some.injEq] at h
          subst h
          refine ⟨?_, ?_, ?_⟩ <;> simp [process_data, hu, GatewayResponse.bodyJson]
  | requestError m =>
      rw [hu] at h
      simp only [ProcessUpstreamResult.failureMsg, Option.some.injEq] at h
      subst h
      refine ⟨?_, ?_, ?_⟩ <;> simp [process_data, hu, GatewayResponse.bodyJson]

/-- Witness for C7 at a concrete transport failure. -/
theorem C7_process_failure_witness :
    ((fun _ : ProcessCall => ProcessUpstreamResult.requestError "Connection refused")
        (processCall cfgNoKey clock0 [])).failureMsg = some "Connection refused"
    ∧ ((process_data cfgNoKey clock0 []
          (fun _ => .requestError "Connection refused")).response
        = .httpError 500 "Connection refused"
      ∧ (process_data cfgNoKey clock0 []
          (fun _ => .requestError "Connection refused")).response.bodyJson
        = some (Json.obj [("detail", Json.str "Connection refused")])
      ∧ (process_data cfgNoKey clock0 []
          (fun _ => .requestError "Connection refused")).outboundCalls.length = 1) :=
  ⟨rfl, C7_process_failure cfgNoKey clock0 []
    (fun _ => .requestError "Connection refused") "Connection refused" rfl⟩

/-- Claim C8: the health operation is a constant of the embedding — it reads
no input and no state — and always returns status 200 with the literal JSON
body having `status: "healthy"` and `service: "python-backend"`. -/
theorem C8_health_literal :
    health_check.status = 200
    ∧ health_check.bodyJson
      = some (Json.obj [("status", Json.str "healthy"),
                        ("service", Json.str "python-backend")]) :=
  ⟨rfl, rfl⟩

/-- Counterexample to claim C9 as stated: a JSON array body sent to
`POST /api/process` is rejected by the framework's validation of the
`Dict[str, Any]` parameter — a 422 validation response — before any
enrich-and-forward behavior runs (no outbound call is made). -/
theorem C9_counterexample :
    (processEndpoint cfgNoKey clock0 (Json.arr [])
        (fun _ => ProcessUpstreamResult.requestError "down")).response.isValidationError = true
    ∧ (processEndpoint cfgNoKey clock0 (Json.arr [])
        (fun _ => ProcessUpstreamResult.requestError "down")).outboundCalls.length = 0 :=
  ⟨rfl, rfl⟩

/-- Claim C9 (amended: "JSON value of any shape" restricted to "JSON object",
the shape the handler's `Dict[str, Any]` annotation admits): every JSON
object payload reaches the handler without validation rejection — the
endpoint behaves as `process_data` on its fields, is never a validation
error, and issues its one outbound call. -/
theorem C9_object_accepted (cfg : Config) (clock : Clock)
    (fields : List (String × Json)) (upstream : ProcessCall → ProcessUpstreamResult) :
    processEndpoint cfg clock (Json.obj fields) upstream
      = process_data cfg clock fields upstream
    ∧ (processEndpoint cfg clock (Json.obj fields) upstream).response.isValidationError = false
    ∧ (processEndpoint cfg clock (Json.obj fields) upstream).outboundCalls.length = 1 := by
  have he : processEndpoint cfg clock (Json.obj fields) upstream
      = process_data cfg clock fields upstream := rfl
  refine ⟨rfl, ?_, ?_⟩ <;> rw [he] <;>
    cases hu : upstream (processCall cfg clock fields) with
  | ok status parsed =>
      cases parsed <;> simp [process_data, hu, GatewayResponse.isValidationError]
  | requestError m =>
      simp [process_data, hu, GatewayResponse.isValidationError]

/-- Claim C10: `forward` is deterministic and reads no ambient state — for a
fixed configuration, inbound request and upstream behavior, its result does
not depend on the process clock (the only ambient state a handler can
observe in this embedding), so two executions agree on the outbound request
and the response. -/
theorem C10_forward_deterministic (cfg : Config) (req : InboundRequest)
    (upstream : OutboundRequest → UpstreamResult) (c1 c2 : Clock) :
    proxy_to_spring cfg c1 req upstream = proxy_to_spring cfg c2 req upstream := rfl
